import Mathlib

/-!
# Verification of the stateright actor-system model checker core

A shallow embedding of the actor abstraction (`src/actor.rs`), the global
system model (`src/actor/system.rs`) and the register test harness
(`src/actor/register.rs`), together with theorems settling the frozen
claims about them.

Modelling conventions:
* `Id(u64)` is modelled as `Nat`; in model-checking contexts the id is the
  actor's index.
* The network `HashableHashSet<Envelope<Msg>>` is modelled as a
  duplicate-free `List (Envelope μ)`: `insert` appends only when the
  element is absent (set semantics collapse duplicates) and `remove` is
  `List.erase`.  The list order stands for the deterministic iteration
  order of the fixed-seed hasher.
* A `&mut Cow<State>` argument together with the unit return of
  `on_msg`/`on_timeout` is modelled as an `Option σ` result:
  `none` means the handle stayed `Cow::Borrowed` (no promotion),
  `some s` means it was promoted to `Cow::Owned(s)`.
* Rust panics (out-of-bounds `Vec` indexed assignment / lookup) are modelled
  explicitly: `process_commands` returns `Option` (`none` = panic) and
  `next_state` returns a three-valued `StepOutcome`.
* The `Range<Duration>` payload of `SetTimer` is discarded by the checker
  (`Command::SetTimer(_)` in `process_commands`), so the embedding omits it.
-/

namespace Stateright

/-- `Id`: uniquely identifies an actor; encodes an index for model checked
actors (`usize::from(id)` / `Id::from(usize)`). -/
abbrev Id := Nat

/-- `Envelope { src, dst, msg }`: source and destination for a message. -/
structure Envelope (μ : Type) where
  src : Id
  dst : Id
  msg : μ
deriving DecidableEq, Repr

/-- `Command`: commands with which an actor can respond
(`CancelTimer`, `SetTimer(Range<Duration>)`, `Send(Id, Msg)`). -/
inductive Command (μ : Type) where
  | CancelTimer : Command μ
  | SetTimer : Command μ
  | Send (dst : Id) (msg : μ) : Command μ
deriving DecidableEq, Repr

/-- The `Actor` trait: `on_start`, `on_msg`, `on_timeout` over state type `σ`
and message type `μ`.  The `Option σ` component of `on_msg`/`on_timeout`
records whether the `Cow` state handle was promoted to owned. -/
structure Actor (σ μ : Type) where
  on_start : Id → σ × List (Command μ)
  on_msg : Id → σ → Id → μ → Option σ × List (Command μ)
  on_timeout : Id → σ → Option σ × List (Command μ)

/-- `is_no_op`: true iff the actor did not update its state (the `Cow` is
still `Borrowed`) and output no commands. -/
def is_no_op (state : Option σ) (out : List (Command μ)) : Bool :=
  state.isNone && out.isEmpty

/-- Default `on_timeout`: no-op (the state handle stays borrowed and no
commands are emitted). -/
def default_on_timeout (σ μ : Type) : Id → σ → Option σ × List (Command μ) :=
  fun _ _ => (none, [])

/-- `LossyNetwork`: whether the network loses messages. -/
inductive LossyNetwork where
  | Yes : LossyNetwork
  | No : LossyNetwork
deriving DecidableEq, Repr

/-- `DuplicatingNetwork`: whether the network duplicates messages. -/
inductive DuplicatingNetwork where
  | Yes : DuplicatingNetwork
  | No : DuplicatingNetwork
deriving DecidableEq, Repr

/-- `SystemState`: a snapshot in time for the entire actor system. -/
structure SystemState (σ μ η : Type) where
  actor_states : List σ
  network : List (Envelope μ)
  is_timer_set : List Bool
  history : η
deriving DecidableEq, Repr

/-- `SystemAction`: possible steps that an actor system can take. -/
inductive SystemAction (μ : Type) where
  | Deliver (src : Id) (dst : Id) (msg : μ) : SystemAction μ
  | Drop (env : Envelope μ) : SystemAction μ
  | Timeout (id : Id) : SystemAction μ
deriving DecidableEq, Repr

/-- `SystemModel`: a model of an actor system, bundling the actors, the
network policies and the history hooks of the `System` trait.
`history_default` is `S::History::default()`. -/
structure SystemModel (σ μ η : Type) where
  actors : List (Actor σ μ)
  init_network : List (Envelope μ)
  lossy_network : LossyNetwork
  duplicating_network : DuplicatingNetwork
  record_msg_in : η → Id → Id → μ → Option η
  record_msg_out : η → Id → Id → μ → Option η
  history_default : η

/-- `HashSet::insert`: set semantics, a no-op when the element is present. -/
def insert_env [DecidableEq μ] (network : List (Envelope μ)) (e : Envelope μ) :
    List (Envelope μ) :=
  if e ∈ network then network else network ++ [e]

/-- The outcome of `next_state` (Rust `Option<State>`, with Rust panics made
explicit): `panicked` is an out-of-bounds `Vec` index panic, `pruned` is
`None` ("no successor"), `next s` is `Some(s)`. -/
inductive StepOutcome (α : Type) where
  | panicked : StepOutcome α
  | pruned : StepOutcome α
  | next (s : α) : StepOutcome α
deriving DecidableEq, Repr

/-- `SystemModel::process_commands`: updates the actor state, sends
messages, and configures the timer, processing the commands in order.
Returns `none` for the Rust panic in the `CancelTimer` arm
(`state.is_timer_set[index] = false` with `index` out of bounds). -/
def process_commands [DecidableEq μ] (m : SystemModel σ μ η) (id : Id)
    (commands : List (Command μ)) (state : SystemState σ μ η) :
    Option (SystemState σ μ η) :=
  match commands with
  | [] => some state
  | c :: rest =>
    match c with
    | .Send dst msg =>
      let state :=
        match m.record_msg_out state.history id dst msg with
        | some history => { state with history := history }
        | none => state
      process_commands m id rest
        { state with network := insert_env state.network ⟨id, dst, msg⟩ }
    | .SetTimer =>
      -- must use the index to infer how large as actor state may not be initialized yet
      let l :=
        if state.is_timer_set.length ≤ id then
          state.is_timer_set ++ List.replicate (id + 1 - state.is_timer_set.length) false
        else state.is_timer_set
      process_commands m id rest { state with is_timer_set := l.set id true }
    | .CancelTimer =>
      if id < state.is_timer_set.length then
        process_commands m id rest
          { state with is_timer_set := state.is_timer_set.set id false }
      else none  -- Rust: `state.is_timer_set[index] = false` panics

/-- The per-actor loop of `init_states`: for each actor in order, run
`on_start`, push the returned state, and process its commands. -/
def init_actors [DecidableEq μ] (m : SystemModel σ μ η) :
    Nat → List (Actor σ μ) → SystemState σ μ η → Option (SystemState σ μ η)
  | _, [], s => some s
  | id, actor :: rest, s =>
    let (state, out) := actor.on_start id
    match process_commands m id out
        { s with actor_states := s.actor_states ++ [state] } with
    | some s' => init_actors m (id + 1) rest s'
    | none => none

/-- `SystemModel::init_states`: one snapshot, built from the default history,
the seeded network, and each actor's `on_start` commands in order
(`none` = a Rust panic while processing commands). -/
def init_states [DecidableEq μ] (m : SystemModel σ μ η) :
    Option (List (SystemState σ μ η)) :=
  let init_sys_state : SystemState σ μ η :=
    { actor_states := []
      network := m.init_network.foldl insert_env []
      is_timer_set := []
      history := m.history_default }
  match init_actors m 0 m.actors init_sys_state with
  | some s => some [s]
  | none => none

/-- `SystemModel::actions`: for each envelope, a `Drop` when the network is
lossy and a `Deliver` when `dst` indexes a real actor; then a `Timeout` for
each actor whose timer is set. -/
def actions [DecidableEq μ] (m : SystemModel σ μ η) (state : SystemState σ μ η) :
    List (SystemAction μ) :=
  (state.network.flatMap fun env =>
    (if m.lossy_network = LossyNetwork.Yes then [SystemAction.Drop env] else []) ++
    (if env.dst < m.actors.length
     then [SystemAction.Deliver env.src env.dst env.msg] else []))
  ++ state.is_timer_set.enum.filterMap
      (fun p => if p.2 then some (SystemAction.Timeout p.1) else none)

/-- `SystemModel::next_state`: applies one action to a snapshot. -/
def next_state [DecidableEq μ] (m : SystemModel σ μ η)
    (last_sys_state : SystemState σ μ η) (action : SystemAction μ) :
    StepOutcome (SystemState σ μ η) :=
  match action with
  | .Drop env =>
    .next { last_sys_state with network := last_sys_state.network.erase env }
  | .Deliver src dst msg =>
    match last_sys_state.actor_states.get? dst with
    | none => .pruned  -- not all messages can be delivered, so ignore those
    | some last_actor_state =>
      match m.actors.get? dst with
      | none => .panicked  -- Rust: `self.actors[index]` panics
      | some actor =>
        let (state, out) := actor.on_msg dst last_actor_state src msg
        -- some operations are no-ops, so ignore those as well
        if is_no_op state out then .pruned
        else
          let history := m.record_msg_in last_sys_state.history src dst msg
          let ns := last_sys_state
          let ns :=
            if m.duplicating_network = DuplicatingNetwork.No then
              { ns with network := ns.network.erase ⟨src, dst, msg⟩ }
            else ns
          let ns :=
            match state with
            -- `dst` is in range because the lookup above succeeded, so
            -- Rust's `actor_states[index] = ...` cannot panic here.
            | some next_actor_state =>
              { ns with actor_states := ns.actor_states.set dst next_actor_state }
            | none => ns
          let ns :=
            match history with
            | some history => { ns with history := history }
            | none => ns
          match process_commands m dst out ns with
          | some ns => .next ns
          | none => .panicked
  | .Timeout id =>
    match last_sys_state.actor_states.get? id with
    | none => .panicked  -- Rust: `last_sys_state.actor_states[index]` panics
    | some last_actor_state =>
      match m.actors.get? id with
      | none => .panicked  -- Rust: `self.actors[index]` panics
      | some actor =>
        let (state, out) := actor.on_timeout id last_actor_state
        let keep_timer := out.any fun c => match c with | .SetTimer => true | _ => false
        if is_no_op state out && keep_timer then .pruned
        else
          if id < last_sys_state.is_timer_set.length then
            -- timer is no longer valid
            let ns := { last_sys_state with
                        is_timer_set := last_sys_state.is_timer_set.set id false }
            let ns :=
              match state with
              -- in range because the lookup above succeeded
              | some next_actor_state =>
                { ns with actor_states := ns.actor_states.set id next_actor_state }
              | none => ns
            match process_commands m id out ns with
            | some ns => .next ns
            | none => .panicked
          else .panicked  -- Rust: `next_sys_state.is_timer_set[index] = false` panics

/-- Snapshots reachable by the explorer's data flow: `init_states` once, then
repeatedly an enumerated action and `next_state`. -/
inductive Reachable [DecidableEq μ] (m : SystemModel σ μ η) :
    SystemState σ μ η → Prop where
  | init (l : List (SystemState σ μ η)) (s : SystemState σ μ η) :
      init_states m = some l → s ∈ l → Reachable m s
  | step (s : SystemState σ μ η) (a : SystemAction μ) (s' : SystemState σ μ η) :
      Reachable m s → a ∈ actions m s → next_state m s a = .next s' →
      Reachable m s'

/-- `majority`: the number of nodes that constitute a majority for a
particular cluster size. -/
def majority (cluster_size : Nat) : Nat :=
  cluster_size / 2 + 1

/-! ## Register test harness (`src/actor/register.rs`) -/

/-- `RegisterMsg<RequestId, Value, InternalMsg>`. -/
inductive RegisterMsg (ρ ν ι : Type) where
  | Internal (msg : ι) : RegisterMsg ρ ν ι
  | Put (req : ρ) (v : ν) : RegisterMsg ρ ν ι
  | Get (req : ρ) : RegisterMsg ρ ν ι
  | PutOk (req : ρ) : RegisterMsg ρ ν ι
  | GetOk (req : ρ) (v : ν) : RegisterMsg ρ ν ι
deriving DecidableEq, Repr

/-- `TestRequestId = u64`. -/
abbrev TestRequestId := Nat

/-- `TestValue = char`. -/
abbrev TestValue := Char

/-- `RegisterActor { Client { server_count } | Server(ServerActor) }`.
The server variant holds the wrapped server actor itself. -/
inductive RegisterActor (α : Type) where
  | Client (server_count : Nat) : RegisterActor α
  | Server (server_actor : α) : RegisterActor α

/-- `RegisterActorState { Client { awaiting, op_count } | Server(ServerState) }`. -/
inductive RegisterActorState (σ : Type) where
  | Client (awaiting : Option TestRequestId) (op_count : Nat) : RegisterActorState σ
  | Server (state : σ) : RegisterActorState σ
deriving DecidableEq, Repr

/-- The client's starting value: `(b'A' + (index - server_count) as u8) as char`.
`u64` subtraction requires `server_count ≤ index` (clients are appended after
the servers); the `u8` cast and addition are reduced mod 256 (release
wrapping semantics). -/
def client_first_value (index server_count : Nat) : Char :=
  Char.ofNat ((65 + (index - server_count) % 256) % 256)

/-- The client's follow-up value: `(b'Z' - (index - server_count) as u8) as char`,
with `u8` wrapping subtraction reduced mod 256 (`346 = 90 + 256`). -/
def client_mirror_value (index server_count : Nat) : Char :=
  Char.ofNat ((346 - (index - server_count) % 256) % 256)

/-- `impl Actor for RegisterActor<ServerActor>`: the composite actor over a
user-supplied server actor.  `u64` arithmetic is reduced mod `2^64`; the
`%` by `server_count` matches Rust only for `server_count > 0` (Rust panics
with a zero divisor), which every theorem below assumes. -/
def register_actor_impl {σ ι : Type}
    (ra : RegisterActor (Actor σ (RegisterMsg TestRequestId TestValue ι))) :
    Actor (RegisterActorState σ) (RegisterMsg TestRequestId TestValue ι) where
  on_start := fun id =>
    match ra with
    | .Client server_count =>
      let index := id
      let unique_request_id := 1 * index  -- next will be 2 * index
      let value := client_first_value index server_count
      (RegisterActorState.Client (some unique_request_id) 1,
       [Command.Send ((index + 0) % server_count)
          (RegisterMsg.Put unique_request_id value)])
    | .Server server_actor =>
      let (state, server_out) := server_actor.on_start id
      (RegisterActorState.Server state, server_out)
  on_msg := fun id state src msg =>
    match ra, state with
    | .Client server_count, .Client (some awaiting) op_count =>
      (match msg with
       | .PutOk request_id =>
         if request_id = awaiting then
           let index := id
           let unique_request_id := ((op_count + 1) % 2 ^ 64 * index) % 2 ^ 64
           let max_put_count := if index = server_count then 2 else 1
           if op_count < max_put_count then
             (some (RegisterActorState.Client (some unique_request_id) (op_count + 1)),
              [Command.Send ((index + op_count) % server_count)
                 (RegisterMsg.Put unique_request_id
                   (client_mirror_value index server_count))])
           else
             (some (RegisterActorState.Client (some unique_request_id) (op_count + 1)),
              [Command.Send ((index + op_count) % server_count)
                 (RegisterMsg.Get unique_request_id)])
         else (none, [])
       | .GetOk request_id _ =>
         if request_id = awaiting then
           (some (RegisterActorState.Client none (op_count + 1)), [])
         else (none, [])
       | _ => (none, []))
    | .Server server_actor, .Server server_state =>
      let (state', server_out) := server_actor.on_msg id server_state src msg
      (match state' with
       | some s => some (RegisterActorState.Server s)
       | none => none,
       server_out)
    | _, _ => (none, [])
  on_timeout := default_on_timeout _ _

/-- `RegisterTestSystem::actors`: the servers in order, then `client_count`
clients, each holding `server_count = servers.len()`. -/
def register_actors {σ ι : Type}
    (servers : List (Actor σ (RegisterMsg TestRequestId TestValue ι)))
    (client_count : Nat) :
    List (RegisterActor (Actor σ (RegisterMsg TestRequestId TestValue ι))) :=
  servers.map RegisterActor.Server
    ++ List.replicate client_count (RegisterActor.Client servers.length)

/-! ## Concrete systems used by witnesses and counterexamples -/

/-- A trivial actor: no commands on start, and `on_msg`/`on_timeout` neither
promote the state nor emit commands. -/
def triv_actor : Actor Unit Unit where
  on_start := fun _ => ((), [])
  on_msg := fun _ _ _ _ => (none, [])
  on_timeout := default_on_timeout _ _

/-- A one-actor system built from `triv_actor` with both history hooks
returning `None`. -/
def triv_model : SystemModel Unit Unit Unit where
  actors := [triv_actor]
  init_network := []
  lossy_network := .No
  duplicating_network := .Yes
  record_msg_in := fun _ _ _ _ => none
  record_msg_out := fun _ _ _ _ => none
  history_default := ()

/-- The timer-reset actor of scenario E6 (test `resets_timer`): `on_start`
calls `set_timer` and `on_msg`/`on_timeout` do nothing. -/
def e6_actor : Actor Unit Unit where
  on_start := fun _ => ((), [Command.SetTimer])
  on_msg := fun _ _ _ _ => (none, [])
  on_timeout := default_on_timeout _ _

/-- The one-actor timer-reset system of scenario E6 (`TestSystem` in the
`resets_timer` test, with the default network policies). -/
def e6_model : SystemModel Unit Unit Unit where
  actors := [e6_actor]
  init_network := []
  lossy_network := .No
  duplicating_network := .Yes
  record_msg_in := fun _ _ _ _ => none
  record_msg_out := fun _ _ _ _ => none
  history_default := ()

/-- The initial E6 snapshot: the timer is set. -/
def e6_s0 : SystemState Unit Unit Unit :=
  { actor_states := [()], network := [], is_timer_set := [true], history := () }

/-- The second E6 snapshot: the timer has been cleared by the timeout. -/
def e6_s1 : SystemState Unit Unit Unit :=
  { actor_states := [()], network := [], is_timer_set := [false], history := () }

/-- An actor that answers every delivered message by sending the same
message back to actor 0, without touching its state. -/
def self_send_actor : Actor Unit Unit where
  on_start := fun _ => ((), [])
  on_msg := fun _ _ _ msg => (none, [Command.Send 0 msg])
  on_timeout := default_on_timeout _ _

/-- A one-actor non-duplicating system built from `self_send_actor`. -/
def self_send_model : SystemModel Unit Unit Unit where
  actors := [self_send_actor]
  init_network := []
  lossy_network := .No
  duplicating_network := .No
  record_msg_in := fun _ _ _ _ => none
  record_msg_out := fun _ _ _ _ => none
  history_default := ()

/-- A snapshot of `self_send_model` whose network carries the self-addressed
envelope `{src: 0, dst: 0, msg: ()}`. -/
def self_send_state : SystemState Unit Unit Unit :=
  { actor_states := [()], network := [⟨0, 0, ()⟩], is_timer_set := [], history := () }

/-- An actor that promotes its state to owned on every delivery but emits no
commands. -/
def promote_actor : Actor Unit Unit where
  on_start := fun _ => ((), [])
  on_msg := fun _ _ _ _ => (some (), [])
  on_timeout := default_on_timeout _ _

/-- A one-actor non-duplicating system built from `promote_actor`. -/
def promote_model : SystemModel Unit Unit Unit where
  actors := [promote_actor]
  init_network := []
  lossy_network := .No
  duplicating_network := .No
  record_msg_in := fun _ _ _ _ => none
  record_msg_out := fun _ _ _ _ => none
  history_default := ()

/-- An actor whose `on_timeout` emits `SetTimer` and then `CancelTimer`. -/
def set_cancel_actor : Actor Unit Unit where
  on_start := fun _ => ((), [])
  on_msg := fun _ _ _ _ => (none, [])
  on_timeout := fun _ _ => (none, [Command.SetTimer, Command.CancelTimer])

/-- A one-actor system built from `set_cancel_actor`. -/
def set_cancel_model : SystemModel Unit Unit Unit where
  actors := [set_cancel_actor]
  init_network := []
  lossy_network := .No
  duplicating_network := .Yes
  record_msg_in := fun _ _ _ _ => none
  record_msg_out := fun _ _ _ _ => none
  history_default := ()

/-- A snapshot of `set_cancel_model` with the timer set. -/
def set_cancel_state : SystemState Unit Unit Unit :=
  { actor_states := [()], network := [], is_timer_set := [true], history := () }

/-- The initial snapshot of `triv_model`: one started actor, empty network,
no timer slot. -/
def triv_s0 : SystemState Unit Unit Unit :=
  { actor_states := [()], network := [], is_timer_set := [], history := () }

/-- A variant of `triv_model` whose network is lossy. -/
def lossy_model : SystemModel Unit Unit Unit :=
  { triv_model with lossy_network := .Yes }

/-- A snapshot of `promote_model` whose network carries the envelope
`{src: 1, dst: 0, msg: ()}`. -/
def promote_state : SystemState Unit Unit Unit :=
  { actor_states := [()], network := [⟨1, 0, ()⟩], is_timer_set := [], history := () }

/-- A server actor that does nothing, for instantiating the register
harness. -/
def null_server : Actor Unit (RegisterMsg TestRequestId TestValue Unit) where
  on_start := fun _ => ((), [])
  on_msg := fun _ _ _ _ => (none, [])
  on_timeout := default_on_timeout _ _

/-- The value of the timer slot of actor `id` after `process_commands`
applies `cmds` in order to a slot currently holding `b`: `SetTimer` sets it,
`CancelTimer` clears it, `Send` leaves it. -/
def timer_after (cmds : List (Command μ)) (b : Bool) : Bool :=
  match cmds with
  | [] => b
  | .SetTimer :: rest => timer_after rest true
  | .CancelTimer :: rest => timer_after rest false
  | .Send _ _ :: rest => timer_after rest b

/-! ## Helper lemmas -/

theorem list_set_of_get {α : Type _} :
    ∀ (l : List α) (i : Nat) (a : α), l.get? i = some a → l.set i a = l
  | [], i, _, h => by simp at h
  | _ :: _, 0, _, h => by
    simp only [List.get?_cons_zero, Option.some.injEq] at h
    simp [List.set, h]
  | x :: xs, i + 1, a, h => by
    simp only [List.get?_cons_succ] at h
    simp [List.set, list_set_of_get xs i a h]

theorem list_get_set_self {α : Type _} :
    ∀ (l : List α) (i : Nat) (a : α), i < l.length → (l.set i a).get? i = some a
  | [], i, _, h => by simp at h
  | _ :: _, 0, _, _ => rfl
  | x :: xs, i + 1, a, h => by
    simp only [List.length_cons, Nat.add_lt_add_iff_right] at h
    simpa [List.set] using list_get_set_self xs i a h

/-- `e ∈ insert_env n x` iff `e` was present or is the inserted element. -/
theorem mem_insert_env [DecidableEq μ] (n : List (Envelope μ)) (x e : Envelope μ) :
    e ∈ insert_env n x ↔ e ∈ n ∨ e = x := by
  unfold insert_env
  split
  · constructor
    · exact Or.inl
    · rintro (h | rfl) <;> assumption
  · simp

/-- `process_commands` leaves the history untouched when `record_msg_out`
always returns `None`. -/
theorem process_commands_history [DecidableEq μ] (m : SystemModel σ μ η)
    (hout : ∀ h a b c, m.record_msg_out h a b c = none) (id : Id) :
    ∀ (cmds : List (Command μ)) (st st' : SystemState σ μ η),
      process_commands m id cmds st = some st' → st'.history = st.history := by
  intro cmds
  induction cmds with
  | nil =>
    intro st st' h
    simp only [process_commands, Option.some.injEq] at h
    exact h ▸ rfl
  | cons c rest ih =>
    intro st st' h
    cases c with
    | Send dst msg =>
      simp only [process_commands, hout] at h
      exact (ih _ _ h).trans rfl
    | SetTimer =>
      simp only [process_commands] at h
      exact (ih _ _ h).trans rfl
    | CancelTimer =>
      simp only [process_commands] at h
      split at h
      · exact (ih _ _ h).trans rfl
      · exact absurd h (by simp)

/-- Whatever `process_commands` adds to the network is an envelope sent by
the processing actor via a `Send` command. -/
theorem process_commands_network_mem [DecidableEq μ] (m : SystemModel σ μ η) (id : Id) :
    ∀ (cmds : List (Command μ)) (st st' : SystemState σ μ η),
      process_commands m id cmds st = some st' →
      ∀ e, e ∈ st'.network →
        e ∈ st.network ∨ ∃ d msg, Command.Send d msg ∈ cmds ∧ e = ⟨id, d, msg⟩ := by
  intro cmds
  induction cmds with
  | nil =>
    intro st st' h e he
    simp only [process_commands, Option.some.injEq] at h
    exact Or.inl (h ▸ he)
  | cons c rest ih =>
    intro st st' h e he
    cases c with
    | Send dst msg =>
      simp only [process_commands] at h
      rcases ih _ _ h e he with hmem | ⟨d, msg2, hc, rfl⟩
      · split at hmem <;>
          rcases (mem_insert_env _ _ _).1 hmem with hmem' | rfl
        · exact Or.inl hmem'
        · exact Or.inr ⟨dst, msg, by simp⟩
        · exact Or.inl hmem'
        · exact Or.inr ⟨dst, msg, by simp⟩
      · exact Or.inr ⟨d, msg2, List.mem_cons_of_mem _ hc, rfl⟩
    | SetTimer =>
      simp only [process_commands] at h
      rcases ih _ _ h e he with hmem | ⟨d, msg2, hc, rfl⟩
      · exact Or.inl hmem
      · exact Or.inr ⟨d, msg2, List.mem_cons_of_mem _ hc, rfl⟩
    | CancelTimer =>
      simp only [process_commands] at h
      split at h
      · rcases ih _ _ h e he with hmem | ⟨d, msg2, hc, rfl⟩
        · exact Or.inl hmem
        · exact Or.inr ⟨d, msg2, List.mem_cons_of_mem _ hc, rfl⟩
      · exact absurd h (by simp)

/-- The timer slot of the processing actor after `process_commands` is
`timer_after` of the commands, provided the slot exists. -/
theorem process_commands_timer [DecidableEq μ] (m : SystemModel σ μ η) (id : Id) :
    ∀ (cmds : List (Command μ)) (st st' : SystemState σ μ η) (b : Bool),
      id < st.is_timer_set.length → st.is_timer_set.get? id = some b →
      process_commands m id cmds st = some st' →
      st'.is_timer_set.get? id = some (timer_after cmds b) := by
  intro cmds
  induction cmds with
  | nil =>
    intro st st' b _ hb h
    simp only [process_commands, Option.some.injEq] at h
    exact h ▸ hb
  | cons c rest ih =>
    intro st st' b hlen hb h
    cases c with
    | Send dst msg =>
      simp only [process_commands] at h
      split at h
      · refine ih _ _ b ?_ ?_ h
        · exact hlen
        · exact hb
      · refine ih _ _ b ?_ ?_ h
        · exact hlen
        · exact hb
    | SetTimer =>
      simp only [process_commands] at h
      rw [if_neg (Nat.not_le.mpr hlen)] at h
      refine ih _ _ true ?_ ?_ h
      · simpa using hlen
      · exact list_get_set_self _ _ _ hlen
    | CancelTimer =>
      simp only [process_commands] at h
      rw [if_pos hlen] at h
      refine ih _ _ false ?_ ?_ h
      · simpa using hlen
      · exact list_get_set_self _ _ _ hlen

/-- The per-actor init loop leaves the history untouched when
`record_msg_out` always returns `None`. -/
theorem init_actors_history [DecidableEq μ] (m : SystemModel σ μ η)
    (hout : ∀ h a b c, m.record_msg_out h a b c = none) :
    ∀ (as : List (Actor σ μ)) (i : Nat) (st st' : SystemState σ μ η),
      init_actors m i as st = some st' → st'.history = st.history := by
  intro as
  induction as with
  | nil =>
    intro i st st' h
    simp only [init_actors, Option.some.injEq] at h
    exact h ▸ rfl
  | cons a rest ih =>
    intro i st st' h
    simp only [init_actors] at h
    split at h
    · rename_i s1 hs1
      exact (ih _ _ _ h).trans
        ((process_commands_history m hout _ _ _ _ hs1).trans rfl)
    · exact absurd h (by simp)

/-! ## Claim C10 -/

/-- Claim C10: for every `cluster_size`, `majority(cluster_size)` returns
`cluster_size / 2 + 1`, which for `cluster_size > 0` is the smallest `m`
such that `2 * m > cluster_size`. -/
theorem majority_is_smallest_over_half (n : Nat) (h : 0 < n) :
    majority n = n / 2 + 1 ∧ n < 2 * majority n ∧
      ∀ m, n < 2 * m → majority n ≤ m := by
  refine ⟨rfl, ?_, ?_⟩
  · simp only [majority]; omega
  · intro m hm; simp only [majority]; omega

/-- Witness for claim C10 at `cluster_size = 5`. -/
theorem majority_is_smallest_over_half_witness :
    0 < 5 ∧ (majority 5 = 5 / 2 + 1 ∧ 5 < 2 * majority 5 ∧
      ∀ m, 5 < 2 * m → majority 5 ≤ m) :=
  ⟨by decide, majority_is_smallest_over_half 5 (by decide)⟩

/-! ## Claim C2 -/

/-- Counterexample for claim C2: processing a `CancelTimer` command for an
actor whose `is_timer_set` slot is absent does not return normally —
`state.is_timer_set[index] = false` panics (modelled as `none`). -/
theorem cancel_timer_absent_slot_panics :
    triv_s0.is_timer_set.get? 0 = none ∧
    process_commands triv_model 0 [Command.CancelTimer] triv_s0 = none := by
  decide

/-- Claim C2 (amended): processing a `CancelTimer` command sets the actor's
`is_timer_set` slot to false and leaves the state otherwise unchanged when
the slot exists (a no-op when the slot is already false); when the slot is
absent the command panics instead of being a no-op. -/
theorem cancel_timer_clears_slot [DecidableEq μ] (m : SystemModel σ μ η)
    (id : Id) (st : SystemState σ μ η) (h : id < st.is_timer_set.length) :
    process_commands m id [Command.CancelTimer] st
      = some { st with is_timer_set := st.is_timer_set.set id false } ∧
    (st.is_timer_set.get? id = some false →
      process_commands m id [Command.CancelTimer] st = some st) := by
  constructor
  · simp [process_commands, h]
  · intro hf
    simp [process_commands, h, list_set_of_get _ _ _ hf]

/-- Witness for claim C2 on the concrete snapshot `e6_s0`. -/
theorem cancel_timer_clears_slot_witness :
    0 < e6_s0.is_timer_set.length ∧
    (process_commands triv_model 0 [Command.CancelTimer] e6_s0
        = some { e6_s0 with is_timer_set := e6_s0.is_timer_set.set 0 false } ∧
      (e6_s0.is_timer_set.get? 0 = some false →
        process_commands triv_model 0 [Command.CancelTimer] e6_s0 = some e6_s0)) :=
  ⟨by decide, cancel_timer_clears_slot triv_model 0 e6_s0 (by decide)⟩

/-! ## Claim C1 -/

/-- Counterexample for claim C1: the `Timeout` transition of `e6_actor` is a
no-op, yet `next_state` returns a successor (the snapshot with the timer
cleared) rather than "no successor" — the `is_no_op && keep_timer` guard in
the `Timeout` arm is vacuous, so no-op timeouts are never pruned. -/
theorem no_op_timeout_not_pruned :
    is_no_op (e6_actor.on_timeout 0 ()).1 (e6_actor.on_timeout 0 ()).2 = true ∧
    SystemAction.Timeout 0 ∈ actions e6_model e6_s0 ∧
    next_state e6_model e6_s0 (.Timeout 0) = .next e6_s1 := by
  decide

/-- Claim C1 (amended): for `Deliver` actions, if the invoked actor
transition neither promotes its state to owned nor emits any command
(`is_no_op` holds), then `next_state` returns "no successor"; for `Timeout`
actions a no-op transition instead yields the successor with the timer
cleared. -/
theorem no_op_deliver_pruned [DecidableEq μ] (m : SystemModel σ μ η)
    (s : SystemState σ μ η) (src dst : Id) (msg : μ) (st : σ) (actor : Actor σ μ)
    (h1 : s.actor_states.get? dst = some st)
    (h2 : m.actors.get? dst = some actor)
    (h3 : is_no_op (actor.on_msg dst st src msg).1 (actor.on_msg dst st src msg).2
            = true) :
    next_state m s (.Deliver src dst msg) = .pruned := by
  cases hp : actor.on_msg dst st src msg with
  | mk stOpt out =>
    rw [hp] at h3
    simp only [next_state, h1, h2, hp, h3, if_true]

/-- Witness for claim C1: delivering to `triv_actor` is a no-op and is
pruned. -/
theorem no_op_deliver_pruned_witness :
    triv_s0.actor_states.get? 0 = some () ∧
    triv_model.actors.get? 0 = some triv_actor ∧
    is_no_op (triv_actor.on_msg 0 () 0 ()).1 (triv_actor.on_msg 0 () 0 ()).2 = true ∧
    next_state triv_model triv_s0 (.Deliver 0 0 ()) = .pruned :=
  ⟨rfl, rfl, rfl,
    no_op_deliver_pruned triv_model triv_s0 0 0 () () triv_actor rfl rfl rfl⟩

/-! ## Claim C4 -/

/-- Counterexample for claim C4: `set_cancel_actor.on_timeout` emits a
`SetTimer` command, yet the successor's `is_timer_set[0]` is `false`,
because a later `CancelTimer` in the same command sequence wins. -/
theorem timeout_set_then_cancel_clears :
    Command.SetTimer ∈ (set_cancel_actor.on_timeout 0 ()).2 ∧
    next_state set_cancel_model set_cancel_state (.Timeout 0)
      = .next { set_cancel_state with is_timer_set := [false] } ∧
    ({ set_cancel_state with is_timer_set := [false]} :
        SystemState Unit Unit Unit).is_timer_set.get? 0 = some false := by
  decide

/-- Claim C4 (amended): if `next_state(S, Timeout(id))` returns a successor,
then in that successor `is_timer_set[id]` is false unless the `on_timeout`
transition re-sets it with a `SetTimer` command that no later `CancelTimer`
of the same transition overrides — i.e. the slot equals `timer_after` of the
emitted commands starting from the cleared slot. -/
theorem timeout_timer_slot [DecidableEq μ] (m : SystemModel σ μ η)
    (s : SystemState σ μ η) (id : Id) (st : σ) (actor : Actor σ μ)
    (s' : SystemState σ μ η)
    (h1 : s.actor_states.get? id = some st)
    (h2 : m.actors.get? id = some actor)
    (h4 : next_state m s (.Timeout id) = .next s') :
    s'.is_timer_set.get? id = some (timer_after (actor.on_timeout id st).2 false) := by
  cases hp : actor.on_timeout id st with
  | mk stOpt out =>
    simp only [next_state, h1, h2, hp] at h4
    split at h4
    · exact absurd h4 (by simp)
    · split at h4
      · rename_i hlen
        split at h4
        · rename_i ns hpc
          cases h4
          cases stOpt with
          | none =>
            refine process_commands_timer m id out _ _ false ?_ ?_ hpc
            · simpa using hlen
            · exact list_get_set_self _ _ _ hlen
          | some next_actor_state =>
            refine process_commands_timer m id out _ _ false ?_ ?_ hpc
            · simpa using hlen
            · exact list_get_set_self _ _ _ hlen
        · exact absurd h4 (by simp)
      · exact absurd h4 (by simp)

/-- Witness for claim C4: the timeout of `e6_actor` clears the timer. -/
theorem timeout_timer_slot_witness :
    e6_s0.actor_states.get? 0 = some () ∧
    e6_model.actors.get? 0 = some e6_actor ∧
    next_state e6_model e6_s0 (.Timeout 0) = .next e6_s1 ∧
    e6_s1.is_timer_set.get? 0
      = some (timer_after (e6_actor.on_timeout 0 ()).2 false) :=
  ⟨rfl, rfl, by decide,
    timeout_timer_slot e6_model e6_s0 0 () e6_actor e6_s1 rfl rfl (by decide)⟩

/-! ## Claim C3 -/

/-- Counterexample for claim C3: under `DuplicatingNetwork::No`, delivering
the self-addressed envelope `{src: 0, dst: 0, msg: ()}` to
`self_send_actor` — whose transition re-sends the same message to itself —
yields a successor whose network still contains the matching envelope. -/
theorem nondup_deliver_self_send_keeps_envelope :
    self_send_model.duplicating_network = DuplicatingNetwork.No ∧
    next_state self_send_model self_send_state (.Deliver 0 0 ())
      = .next self_send_state ∧
    (⟨0, 0, ()⟩ : Envelope Unit) ∈ self_send_state.network := by
  decide

/-- Claim C3 (amended): under `DuplicatingNetwork::No`, after a successful
`Deliver{src, dst, msg}` the matching envelope is absent from the
successor's network, unless the transition itself re-sends the identical
envelope (which requires `src = dst` and a `Send(dst, msg)` command).
`s.network.Nodup` is the set-semantics invariant of the Rust `HashSet`. -/
theorem nondup_deliver_removes_envelope [DecidableEq μ] (m : SystemModel σ μ η)
    (s : SystemState σ μ η) (src dst : Id) (msg : μ) (st : σ) (actor : Actor σ μ)
    (s' : SystemState σ μ η)
    (hnd : s.network.Nodup)
    (hdup : m.duplicating_network = DuplicatingNetwork.No)
    (h1 : s.actor_states.get? dst = some st)
    (h2 : m.actors.get? dst = some actor)
    (h4 : next_state m s (.Deliver src dst msg) = .next s')
    (h5 : ¬(src = dst ∧ Command.Send dst msg ∈ (actor.on_msg dst st src msg).2)) :
    (⟨src, dst, msg⟩ : Envelope μ) ∉ s'.network := by
  cases hp : actor.on_msg dst st src msg with
  | mk stOpt out =>
    rw [hp] at h5
    simp only [next_state, h1, h2, hp, hdup, if_true] at h4
    split at h4
    · exact absurd h4 (by simp)
    · split at h4
      · rename_i ns hpc
        cases h4
        intro hmem
        rcases process_commands_network_mem m dst out _ _ hpc _ hmem with hin | hsent
        · have herase : (⟨src, dst, msg⟩ : Envelope μ)
              ∈ s.network.erase (⟨src, dst, msg⟩ : Envelope μ) := by
            cases stOpt <;> split at hin <;> simpa using hin
          exact absurd herase hnd.not_mem_erase
        · rcases hsent with ⟨d, msg2, hc, heq⟩
          cases heq
          exact h5 ⟨rfl, hc⟩
      · exact absurd h4 (by simp)

/-- Witness for claim C3: delivering `{src: 1, dst: 0}` to `promote_actor`
(which sends nothing) removes the envelope. -/
theorem nondup_deliver_removes_envelope_witness :
    promote_state.network.Nodup ∧
    promote_model.duplicating_network = DuplicatingNetwork.No ∧
    promote_state.actor_states.get? 0 = some () ∧
    promote_model.actors.get? 0 = some promote_actor ∧
    next_state promote_model promote_state (.Deliver 1 0 ())
      = .next { promote_state with network := [] } ∧
    ¬(1 = 0 ∧ Command.Send 0 () ∈ (promote_actor.on_msg 0 () 1 ()).2) ∧
    (⟨1, 0, ()⟩ : Envelope Unit) ∉
      ({ promote_state with network := [] } : SystemState Unit Unit Unit).network :=
  ⟨by decide, rfl, rfl, rfl, by decide, by decide,
    nondup_deliver_removes_envelope promote_model promote_state 1 0 () ()
      promote_actor _ (by decide) rfl rfl rfl (by decide) (by decide)⟩

/-! ## Claim C6 -/

/-- Claim C6: for every state `S` and envelope in `S.network`, a `Drop`
action for that envelope is enumerated by `actions(S)` iff the system's
network is lossy. -/
theorem drop_action_iff_lossy [DecidableEq μ] (m : SystemModel σ μ η)
    (s : SystemState σ μ η) (env : Envelope μ) (h : env ∈ s.network) :
    SystemAction.Drop env ∈ actions m s ↔ m.lossy_network = LossyNetwork.Yes := by
  constructor
  · intro hmem
    simp only [actions, List.mem_append, List.mem_flatMap,
      List.mem_filterMap] at hmem
    rcases hmem with ⟨e, he, hdrop | hdel⟩ | ⟨p, hp, heq⟩
    · split at hdrop
      · assumption
      · simp at hdrop
    · split at hdel <;> simp at hdel
    · split at heq <;> simp at heq
  · intro hl
    simp only [actions, List.mem_append, List.mem_flatMap]
    exact Or.inl ⟨env, h, by simp [hl]⟩

/-- Witness for claim C6 on a lossy one-actor system. -/
theorem drop_action_iff_lossy_witness :
    (⟨0, 0, ()⟩ : Envelope Unit) ∈ self_send_state.network ∧
    (SystemAction.Drop (⟨0, 0, ()⟩ : Envelope Unit)
        ∈ actions lossy_model self_send_state ↔
      lossy_model.lossy_network = LossyNetwork.Yes) :=
  ⟨by decide,
    drop_action_iff_lossy lossy_model self_send_state ⟨0, 0, ()⟩ (by decide)⟩

/-! ## Claim C7 -/

/-- Claim C7: an envelope with `dst ≥ actor_count` is never consumed by
`Deliver`: no `Deliver` action with that `dst` is enumerated, and
`next_state` on such a `Deliver` returns "no successor" (given the snapshot
invariant `actor_states.len() == actor_count`), leaving the envelope in the
network. -/
theorem unknown_dst_never_delivered [DecidableEq μ] (m : SystemModel σ μ η)
    (s : SystemState σ μ η) (src dst : Id) (msg : μ)
    (h : m.actors.length ≤ dst) :
    SystemAction.Deliver src dst msg ∉ actions m s ∧
    (s.actor_states.length = m.actors.length →
      next_state m s (.Deliver src dst msg) = .pruned) := by
  constructor
  · intro hmem
    simp only [actions, List.mem_append, List.mem_flatMap,
      List.mem_filterMap] at hmem
    rcases hmem with ⟨e, he, hdrop | hdel⟩ | ⟨p, hp, heq⟩
    · split at hdrop <;> simp at hdrop
    · split at hdel
      · rename_i hlt
        simp only [List.mem_singleton, SystemAction.Deliver.injEq] at hdel
        obtain ⟨-, rfl, -⟩ := hdel
        exact absurd hlt (Nat.not_lt.mpr h)
      · simp at hdel
    · split at heq <;> simp at heq
  · intro hlen
    have hget : s.actor_states.get? dst = none :=
      List.get?_eq_none.mpr (by omega)
    simp only [next_state, hget]

/-- Witness for claim C7: `dst = 1` in the one-actor system `e6_model`. -/
theorem unknown_dst_never_delivered_witness :
    e6_model.actors.length ≤ 1 ∧
    (SystemAction.Deliver 0 1 () ∉ actions e6_model e6_s0 ∧
      (e6_s0.actor_states.length = e6_model.actors.length →
        next_state e6_model e6_s0 (.Deliver 0 1 ()) = .pruned)) :=
  ⟨by decide, unknown_dst_never_delivered e6_model e6_s0 0 1 () (by decide)⟩

/-! ## Claim C5 -/

/-- Claim C5: the one-actor system that sets its timer in `on_start` and
does nothing in `on_msg`/`on_timeout` reaches exactly 2 snapshots: the
initial one with the timer set and its `Timeout` successor with the timer
cleared. -/
theorem e6_exactly_two_snapshots :
    init_states e6_model = some [e6_s0] ∧
    next_state e6_model e6_s0 (.Timeout 0) = .next e6_s1 ∧
    e6_s0.is_timer_set = [true] ∧ e6_s1 = { e6_s0 with is_timer_set := [false] } ∧
    e6_s0 ≠ e6_s1 ∧
    ∀ s, Reachable e6_model s ↔ s = e6_s0 ∨ s = e6_s1 := by
  refine ⟨by decide, by decide, rfl, by decide, by decide, ?_⟩
  intro s
  constructor
  · intro h
    induction h with
    | init l s0 hinit hmem =>
      have hi : init_states e6_model = some [e6_s0] := by decide
      rw [hi] at hinit
      cases hinit
      simp only [List.mem_singleton] at hmem
      exact Or.inl hmem
    | step s a s' hr ha hn ih =>
      rcases ih with rfl | rfl
      · have hact : actions e6_model e6_s0 = [SystemAction.Timeout 0] := by decide
        rw [hact] at ha
        simp only [List.mem_singleton] at ha
        subst ha
        have hnx : next_state e6_model e6_s0 (.Timeout 0) = .next e6_s1 := by decide
        rw [hnx] at hn
        exact Or.inr (StepOutcome.next.inj hn).symm
      · have hact : actions e6_model e6_s1 = ([] : List (SystemAction Unit)) := by
          decide
        rw [hact] at ha
        cases ha
  · rintro (rfl | rfl)
    · exact Reachable.init [e6_s0] e6_s0 (by decide) (by simp)
    · exact Reachable.step e6_s0 (.Timeout 0) e6_s1
        (Reachable.init [e6_s0] e6_s0 (by decide) (by simp)) (by decide) (by decide)

/-! ## Claim C8 -/

/-- `next_state` leaves the history untouched when both history hooks
always return `None`. -/
theorem next_state_history [DecidableEq μ] (m : SystemModel σ μ η)
    (hin : ∀ h a b c, m.record_msg_in h a b c = none)
    (hout : ∀ h a b c, m.record_msg_out h a b c = none)
    (s : SystemState σ μ η) (a : SystemAction μ) (s' : SystemState σ μ η)
    (h : next_state m s a = .next s') : s'.history = s.history := by
  cases a with
  | Drop env =>
    simp only [next_state] at h
    cases h
    rfl
  | Deliver src dst msg =>
    cases hget : s.actor_states.get? dst with
    | none =>
      simp only [next_state, hget] at h
      exact absurd h (by simp)
    | some st =>
      cases hact : m.actors.get? dst with
      | none =>
        simp only [next_state, hget, hact] at h
        exact absurd h (by simp)
      | some actor =>
        cases hp : actor.on_msg dst st src msg with
        | mk stOpt out =>
          simp only [next_state, hget, hact, hp, hin] at h
          split at h
          · exact absurd h (by simp)
          · split at h
            · rename_i ns hpc
              cases h
              rw [process_commands_history m hout _ _ _ _ hpc]
              cases stOpt <;> cases hd : m.duplicating_network <;> simp [hd]
            · exact absurd h (by simp)
  | Timeout id =>
    cases hget : s.actor_states.get? id with
    | none =>
      simp only [next_state, hget] at h
      exact absurd h (by simp)
    | some st =>
      cases hact : m.actors.get? id with
      | none =>
        simp only [next_state, hget, hact] at h
        exact absurd h (by simp)
      | some actor =>
        cases hp : actor.on_timeout id st with
        | mk stOpt out =>
          simp only [next_state, hget, hact, hp] at h
          split at h
          · exact absurd h (by simp)
          · split at h
            · split at h
              · rename_i ns hpc
                cases h
                rw [process_commands_history m hout _ _ _ _ hpc]
                cases stOpt <;> rfl
              · exact absurd h (by simp)
            · exact absurd h (by simp)

/-- Claim C8: if both `record_msg_in` and `record_msg_out` always return
`None`, every snapshot reachable via `init_states` and `next_state` has its
history equal to `History::default()`. -/
theorem reachable_history_default [DecidableEq μ] (m : SystemModel σ μ η)
    (hin : ∀ h a b c, m.record_msg_in h a b c = none)
    (hout : ∀ h a b c, m.record_msg_out h a b c = none)
    (s : SystemState σ μ η) (hr : Reachable m s) :
    s.history = m.history_default := by
  induction hr with
  | init l s0 hinit hmem =>
    simp only [init_states] at hinit
    split at hinit
    · rename_i s1 hs1
      cases hinit
      simp only [List.mem_singleton] at hmem
      subst hmem
      exact (init_actors_history m hout _ _ _ _ hs1).trans rfl
    · exact absurd hinit (by simp)
  | step s a s' hr ha hn ih =>
    exact (next_state_history m hin hout _ _ _ hn).trans ih

/-- Witness for claim C8 on `triv_model`, whose hooks always return
`None`. -/
theorem reachable_history_default_witness :
    (∀ h a b c, triv_model.record_msg_in h a b c = none) ∧
    (∀ h a b c, triv_model.record_msg_out h a b c = none) ∧
    Reachable triv_model triv_s0 ∧
    triv_s0.history = triv_model.history_default :=
  ⟨fun _ _ _ _ => rfl, fun _ _ _ _ => rfl,
   Reachable.init [triv_s0] triv_s0 (by decide) (by simp),
   reachable_history_default triv_model (fun _ _ _ _ => rfl) (fun _ _ _ _ => rfl)
     triv_s0 (Reachable.init [triv_s0] triv_s0 (by decide) (by simp))⟩

/-! ## Claim C9 -/

/-- Claim C9: in the register test harness, every client actor (appended
after all servers, with id `c ≥ server_count`) on `on_start` sends
`Put(req_id, value)` with `req_id = 1 * c` and `value = 'A' + (c -
server_count)` to server `Id(c mod server_count)`, and returns the client
state with `awaiting = Some(req_id)` and `op_count = 1`.  The hypotheses
keep the `u8` character arithmetic and the `%` by `server_count` within the
range where they are defined. -/
theorem register_client_on_start {σ ι : Type}
    (servers : List (Actor σ (RegisterMsg TestRequestId TestValue ι)))
    (client_count : Nat) (c : Nat)
    (h0 : 0 < servers.length)
    (hc : servers.length ≤ c)
    (hcc : c < servers.length + client_count)
    (hletters : c - servers.length ≤ 190) :
    (register_actors servers client_count).get? c
      = some (RegisterActor.Client servers.length) ∧
    (@register_actor_impl σ ι (RegisterActor.Client servers.length)).on_start c
      = (RegisterActorState.Client (some c) 1,
         [Command.Send (c % servers.length)
            (RegisterMsg.Put c (Char.ofNat (65 + (c - servers.length))))]) := by
  constructor
  · unfold register_actors
    rw [List.get?_eq_getElem?,
      List.getElem?_append_right (by simpa using hc)]
    simp only [List.length_map]
    rw [List.getElem?_replicate, if_pos (by omega)]
  · have h1 : (c - servers.length) % 256 = c - servers.length :=
      Nat.mod_eq_of_lt (by omega)
    have h2 : (65 + (c - servers.length)) % 256 = 65 + (c - servers.length) :=
      Nat.mod_eq_of_lt (by omega)
    simp [register_actor_impl, client_first_value, h1, h2]

/-- Witness for claim C9: one server, two clients, client id 1. -/
theorem register_client_on_start_witness :
    0 < [null_server].length ∧ [null_server].length ≤ 1 ∧
    1 < [null_server].length + 2 ∧ 1 - [null_server].length ≤ 190 ∧
    ((register_actors [null_server] 2).get? 1
        = some (RegisterActor.Client [null_server].length) ∧
      (@register_actor_impl Unit Unit
          (RegisterActor.Client [null_server].length)).on_start 1
        = (RegisterActorState.Client (some 1) 1,
           [Command.Send (1 % [null_server].length)
              (RegisterMsg.Put 1 (Char.ofNat (65 + (1 - [null_server].length))))])) :=
  ⟨by decide, by decide, by decide, by decide,
   register_client_on_start [null_server] 2 1 (by decide) (by decide)
     (by decide) (by decide)⟩

end Stateright
